import Mathlib

/-!
Verification development for the NEO extraction layer
(`models.py` and `extract.py`).

The Python code is shallowly embedded: Python floats as used by this code
(decimal feed values and the NaN "unknown" sentinel) are modelled by `PFloat`
(a rational or NaN); optional/absent values by `Option`; exceptions by
`Except PyError`; CSV rows and the column-oriented JSON rows by explicit
records and lists of strings.  The missing `helpers` module (not part of the
sources) is modelled from the spec where noted.
-/

/-- A Python float value as this code base uses them: either the IEEE-754 NaN
sentinel (meaning "unknown") or an exact numeric value.  The feed only carries
short decimal literals, which are exactly represented as rationals. -/
inductive PFloat where
  | nan : PFloat
  | val : ℚ → PFloat
deriving DecidableEq

/-- Python truthiness of a float: `0.0` is falsy, every other float — NaN
included — is truthy. -/
def PFloat.isTruthy : PFloat → Bool
  | .nan => true
  | .val q => q != 0

/-- The `math.isnan` test. -/
def PFloat.isNaN : PFloat → Bool
  | .nan => true
  | .val _ => false

/-- A Python exception value, as far as this code distinguishes them. -/
inductive PyError where
  | valueError (arg : String)
  | typeError (msg : String)
deriving DecidableEq

/-- Numeric value of a list of decimal digit characters. -/
def digitsToNat (cs : List Char) : Nat :=
  cs.foldl (fun acc c => acc * 10 + (c.toNat - 48)) 0

/-- Split a character list on a separator character (the semantics of
Python's `str.split(sep)` on the separators this code needs). -/
def splitOnChar (sep : Char) : List Char → List (List Char)
  | [] => [[]]
  | c :: rest =>
    let r := splitOnChar sep rest
    if c = sep then [] :: r
    else
      match r with
      | [] => [[c]]
      | g :: gs => (c :: g) :: gs

/-- The Python builtin `float` applied to the characters of a string,
restricted to the plain decimal literals the feeds carry: an optional sign,
digits, an optional decimal point.  A string of any other shape
(e.g. `"n/a"`, `"abc"`, `""`) raises ValueError, modelled as `none`. -/
def pyFloatOfChars (cs : List Char) : Option PFloat :=
  let (sign, body) :=
    match cs with
    | '-' :: rest => ((-1 : ℤ), rest)
    | '+' :: rest => ((1 : ℤ), rest)
    | _ => ((1 : ℤ), cs)
  match splitOnChar '.' body with
  | [ip] =>
      if ip.length > 0 && ip.all Char.isDigit then
        some (.val (mkRat (sign * digitsToNat ip) 1))
      else none
  | [ip, fp] =>
      if (ip.length > 0 || fp.length > 0)
          && ip.all Char.isDigit && fp.all Char.isDigit then
        some (.val (mkRat
          (sign * (digitsToNat ip * 10 ^ fp.length + digitsToNat fp))
          (10 ^ fp.length)))
      else none
  | _ => none

/-- The Python builtin `float` on a string (see `pyFloatOfChars`). -/
def pyFloat? (s : String) : Option PFloat :=
  pyFloatOfChars s.toList

/-- Python truthiness of an optional string (`None` and `""` are falsy). -/
def pyTruthyOptStr : Option String → Bool
  | none => false
  | some s => s != ""

/-- Python truthiness of an optional bool (`None` is falsy). -/
def pyTruthyOptBool : Option Bool → Bool
  | none => false
  | some b => b

/-- Rendering of an optional string in an f-string: `None` prints as
`"None"`, a string prints as itself. -/
def pyStrOfOpt : Option String → String
  | none => "None"
  | some s => s

/-- Modelled from the spec: the internal date-time instant produced by the
Temporal Normalizer (`cd_to_datetime` in the repository's `helpers` module,
which is not among the sources).  Minute resolution, per §4.1. -/
structure PDateTime where
  year : Nat
  month : Nat
  day : Nat
  hour : Nat
  minute : Nat
deriving DecidableEq

/-- Three-letter month abbreviations of the source's date format. -/
def monthOfAbbrev : List Char → Option Nat
  | ['J', 'a', 'n'] => some 1
  | ['F', 'e', 'b'] => some 2
  | ['M', 'a', 'r'] => some 3
  | ['A', 'p', 'r'] => some 4
  | ['M', 'a', 'y'] => some 5
  | ['J', 'u', 'n'] => some 6
  | ['J', 'u', 'l'] => some 7
  | ['A', 'u', 'g'] => some 8
  | ['S', 'e', 'p'] => some 9
  | ['O', 'c', 't'] => some 10
  | ['N', 'o', 'v'] => some 11
  | ['D', 'e', 'c'] => some 12
  | _ => none

/-- Modelled from the spec: `cd_to_datetime` from the repository's `helpers`
module (not among the sources).  Parses a string of the form
`YYYY-MMM-DD HH:MM` (month as a three-letter abbreviation); any string not
matching the pattern fails with a format error, modelled as `none`
(§4.1: an unparsable time propagates as a construction failure). -/
def cd_to_datetime (raw : String) : Option PDateTime :=
  match splitOnChar ' ' raw.toList with
  | [datePart, timePart] =>
    match splitOnChar '-' datePart, splitOnChar ':' timePart with
    | [y, mon, d], [h, mi] =>
      if y.length = 4 && y.all Char.isDigit
          && d.length > 0 && d.all Char.isDigit
          && h.length > 0 && h.all Char.isDigit
          && mi.length > 0 && mi.all Char.isDigit
          && digitsToNat d ≥ 1 && digitsToNat d ≤ 31
          && digitsToNat h ≤ 23 && digitsToNat mi ≤ 59 then
        (monthOfAbbrev mon).map fun m =>
          ⟨digitsToNat y, m, digitsToNat d, digitsToNat h, digitsToNat mi⟩
      else none
    | _, _ => none
  | _ => none

mutual

/-- `models.NearEarthObject`: designation, optional name, diameter (NaN when
unknown), hazard flag, and the collection of linked approaches. -/
inductive NearEarthObject : Type where
  | mk : Option String → Option String → PFloat → Option Bool →
      List CloseApproach → NearEarthObject

/-- `models.CloseApproach`: the private designation key, approach time,
distance, velocity, and the (initially absent) reference to the owning NEO. -/
inductive CloseApproach : Type where
  | mk : Option String → PDateTime → PFloat → PFloat →
      Option NearEarthObject → CloseApproach

end

def NearEarthObject.designation : NearEarthObject → Option String
  | .mk d _ _ _ _ => d

def NearEarthObject.name : NearEarthObject → Option String
  | .mk _ n _ _ _ => n

def NearEarthObject.diameter : NearEarthObject → PFloat
  | .mk _ _ dia _ _ => dia

def NearEarthObject.hazardous : NearEarthObject → Option Bool
  | .mk _ _ _ h _ => h

def NearEarthObject.approaches : NearEarthObject → List CloseApproach
  | .mk _ _ _ _ a => a

def CloseApproach.designationKey : CloseApproach → Option String
  | .mk d _ _ _ _ => d

def CloseApproach.time : CloseApproach → PDateTime
  | .mk _ t _ _ _ => t

def CloseApproach.distance : CloseApproach → PFloat
  | .mk _ _ dst _ _ => dst

def CloseApproach.velocity : CloseApproach → PFloat
  | .mk _ _ _ v _ => v

def CloseApproach.neo : CloseApproach → Option NearEarthObject
  | .mk _ _ _ _ n => n

/-- The keyword-argument bag accepted by `NearEarthObject.__init__`
(`**info`); a field is `none` when the key is absent.  Unrecognized keys are
never read by the constructor, so they need no representation. -/
structure NeoInfo where
  designation : Option String
  name : Option String
  diameter : Option PFloat
  hazardous : Option Bool

/-- `NearEarthObject.__init__`: stores `designation`, `name` and `hazardous`
as given (`info.get` returns `None` for an absent key), replaces a falsy
diameter (absent or `0.0`) with NaN, and starts with an empty approach
list. -/
def mkNearEarthObject (info : NeoInfo) : NearEarthObject :=
  let diameter :=
    match info.diameter with
    | none => PFloat.nan
    | some f => if f.isTruthy then f else PFloat.nan
  NearEarthObject.mk info.designation info.name diameter info.hazardous []

/-- The keyword-argument bag accepted by `CloseApproach.__init__`. -/
structure ApproachInfo where
  designation : Option String
  time : Option String
  distance : Option PFloat
  velocity : Option PFloat
  neo : Option NearEarthObject

/-- `CloseApproach.__init__`: stores the designation key, parses the time
with `cd_to_datetime` (an unparsable or absent time raises, so construction
fails), defaults distance and velocity to NaN when absent, and stores the
`neo` reference as given (`None` when absent). -/
def mkCloseApproach (info : ApproachInfo) : Except PyError CloseApproach :=
  match info.time with
  | none => .error (.typeError "strptime argument must be str, not NoneType")
  | some s =>
    match cd_to_datetime s with
    | none => .error (.valueError s)
    | some t =>
      .ok (CloseApproach.mk info.designation t (info.distance.getD .nan)
        (info.velocity.getD .nan) info.neo)

example : pyFloat? "2.3" = some (.val (mkRat 23 10)) := by decide
example : pyFloat? "n/a" = none := by decide
example : pyFloat? "16.84" = some (.val (mkRat 1684 100)) := by decide
example : pyFloat? "16.84" = some (.val (mkRat 421 25)) := by decide
example : (cd_to_datetime "1900-Jan-01 12:00").isSome = true := by decide

/-- `NearEarthObject.fullname`: the designation alone when the name is falsy
(absent or empty), else `designation (name)`. -/
def NearEarthObject.fullname (neo : NearEarthObject) : String :=
  if pyTruthyOptStr neo.name then
    pyStrOfOpt neo.designation ++ " (" ++ pyStrOfOpt neo.name ++ ")"
  else
    pyStrOfOpt neo.designation

/-- Left-pad a string with zero characters to the given width. -/
def padZeroes (w : Nat) (s : String) : String :=
  if s.length < w then String.mk (List.replicate (w - s.length) '0') ++ s
  else s

/-- Left-pad a string with spaces to the given width. -/
def padSpaces (w : Nat) (s : String) : String :=
  if s.length < w then String.mk (List.replicate (w - s.length) ' ') ++ s
  else s

/-- Fixed-point rendering of a rational with `prec` digits after the decimal
point, rounding to nearest (the feed's two-decimal values are exact at six
digits, so ties never arise for the values this code formats). -/
def formatFixed (prec : Nat) (q : ℚ) : String :=
  let sign := if q.num < 0 then "-" else ""
  let scaled := q.num.natAbs * 10 ^ prec
  let m := (2 * scaled + q.den) / (2 * q.den)
  sign ++ toString (m / 10 ^ prec) ++ "." ++ padZeroes prec (toString (m % 10 ^ prec))

/-- The Python format spec `3f`, as written in `NearEarthObject.__str__`'s
f-string `{self.diameter:3f}`: minimum field width 3 and — because no
precision is given — the default precision of 6 digits after the decimal
point.  (The spec-intended `.3f` would instead be precision 3.) -/
def PFloat.format3f : PFloat → String
  | .nan => "nan"
  | .val q => padSpaces 3 (formatFixed 6 q)

/-- `NearEarthObject.__str__`: the fullname, the diameter clause (note the
source writes `result += "an unknown diameter"` without a leading space, and
formats a known diameter with `{...:3f}`), then the hazard clause. -/
def NearEarthObject.str (neo : NearEarthObject) : String :=
  let result := "NEO " ++ neo.fullname ++ " has"
  let result :=
    if neo.diameter.isNaN then result ++ "an unknown diameter"
    else result ++ " a diameter of " ++ neo.diameter.format3f ++ " km"
  if pyTruthyOptBool neo.hazardous then
    result ++ " and is potentially hazardous."
  else
    result ++ " and is not potentially hazardous."

/-- A Python value as stored in the dictionaries built by `serialize`. -/
inductive PValue where
  | str : String → PValue
  | num : PFloat → PValue
  | flag : Option Bool → PValue
deriving DecidableEq

/-- `NearEarthObject.serialize`: the dictionary with keys `name` (empty
string when the name is `None`, otherwise the name itself), `designation`
(f-string rendering of the stored designation), `diameter_km` (the stored
float, NaN included) and `potentially_hazardous`, in the source's insertion
order. -/
def NearEarthObject.serialize (neo : NearEarthObject) : List (String × PValue) :=
  let nameVal : PValue :=
    match neo.name with
    | none => .str ""
    | some s => .str s
  [("name", nameVal),
   ("designation", .str (pyStrOfOpt neo.designation)),
   ("diameter_km", .num neo.diameter),
   ("potentially_hazardous", .flag neo.hazardous)]

/-- One row of the NEO CSV feed, restricted to the columns `load_neos`
reads (`csv.DictReader` yields every header column as a string; extra
columns are never read). -/
structure NeoRecord where
  pdes : String
  name : String
  diameter : String
  pha : String

/-- The diameter normalization of the `load_neos` loop,
`float(n["diameter"]) if n["diameter"] else None`.  It runs before the
`try` block, so the ValueError raised by a non-numeric non-empty diameter
is NOT caught. -/
def diameterOfRecord (r : NeoRecord) : Except PyError (Option PFloat) :=
  if r.diameter = "" then .ok none
  else
    match pyFloat? r.diameter with
    | some f => .ok (some f)
    | none => .error (.valueError r.diameter)

/-- The per-row body of the `load_neos` loop: the name, diameter and pha
normalizations (all before the `try` block), then the construction, which
the `try` wraps but which never fails.  Returns the appended object, or the
escaping exception. -/
def neoOfRecord (r : NeoRecord) : Except PyError NearEarthObject :=
  match diameterOfRecord r with
  | .error e => .error e
  | .ok d =>
    .ok (mkNearEarthObject ⟨some r.pdes,
      (if r.name = "" then none else some r.name), d,
      some (if r.pha = "" ∨ r.pha = "N" then false else true)⟩)

/-- `extract.load_neos` on the parsed rows of the CSV file: each row is
normalized and constructed in order; an uncaught exception (see
`neoOfRecord`) aborts the whole load, losing every record. -/
def load_neos : List NeoRecord → Except PyError (List NearEarthObject)
  | [] => .ok []
  | r :: rs =>
    match neoOfRecord r with
    | .error e => .error e
    | .ok neo => (load_neos rs).map (neo :: ·)

/-- Lookup in the dictionary `dict(zip(fields, row))`: `zip` truncates to
the shorter list and a duplicated key keeps its last value. -/
def dictZipLookup (fields row : List String) (key : String) : Option String :=
  (List.zip fields row).foldl
    (fun acc p => if p.1 = key then some p.2 else acc) none

/-- The body of the `load_approaches` loop for one row, everything inside
the `try` block: the four key lookups (a missing key raises KeyError), the
two float conversions (a non-numeric value raises ValueError), and the
construction (an unparsable time raises).  Every exception is caught and the
row skipped, modelled as `none`. -/
def approachOfRow (fields row : List String) : Option CloseApproach := do
  let des ← dictZipLookup fields row "des"
  let cd ← dictZipLookup fields row "cd"
  let dist ← dictZipLookup fields row "dist"
  let d ← pyFloat? dist
  let vrel ← dictZipLookup fields row "v_rel"
  let v ← pyFloat? vrel
  (mkCloseApproach ⟨some des, some cd, some d, some v, none⟩).toOption

/-- The accumulator loop of `load_approaches`: successfully constructed
approaches are appended in row order. -/
def loadApproachesLoop (fields : List String) :
    List (List String) → List CloseApproach → List CloseApproach
  | [], acc => acc.reverse
  | row :: rows, acc =>
    match approachOfRow fields row with
    | none => loadApproachesLoop fields rows acc
    | some a => loadApproachesLoop fields rows (a :: acc)

/-- `extract.load_approaches` on the decoded JSON document, given as the
`fields` manifest and the `data` value rows. -/
def load_approaches (fields : List String) (data : List (List String)) :
    List CloseApproach :=
  loadApproachesLoop fields data []

theorem pyFloat_na : pyFloat? "n/a" = none := by decide

theorem mkNearEarthObject_designation (i : NeoInfo) :
    (mkNearEarthObject i).designation = i.designation := rfl

theorem mkNearEarthObject_name (i : NeoInfo) :
    (mkNearEarthObject i).name = i.name := rfl

theorem mkNearEarthObject_hazardous (i : NeoInfo) :
    (mkNearEarthObject i).hazardous = i.hazardous := rfl

theorem mkNearEarthObject_diameter (i : NeoInfo) :
    (mkNearEarthObject i).diameter
      = match i.diameter with
        | none => PFloat.nan
        | some f => if f.isTruthy then f else PFloat.nan := rfl

theorem length_filterMap_eq_sub {α β : Type} (f : α → Option β) :
    ∀ l : List α,
      (l.filterMap f).length = l.length - l.countP (fun a => (f a).isNone)
  | [] => rfl
  | a :: l => by
    have ih := length_filterMap_eq_sub f l
    have hle := List.countP_le_length (fun x => ((f x).isNone : Bool)) (l := l)
    cases h : f a with
    | none =>
      simp [List.filterMap_cons, h, List.countP_cons, ih]
    | some b =>
      simp [List.filterMap_cons, h, List.countP_cons, ih]
      omega

theorem loadApproachesLoop_eq (fields : List String) :
    ∀ (data : List (List String)) (acc : List CloseApproach),
      loadApproachesLoop fields data acc
        = acc.reverse ++ data.filterMap (approachOfRow fields)
  | [], acc => by simp [loadApproachesLoop]
  | row :: rows, acc => by
    cases h : approachOfRow fields row with
    | none =>
      simp [loadApproachesLoop, h, loadApproachesLoop_eq fields rows acc,
        List.filterMap_cons]
    | some a =>
      simp [loadApproachesLoop, h, loadApproachesLoop_eq fields rows (a :: acc),
        List.filterMap_cons]

theorem load_approaches_eq_filterMap (fields : List String)
    (data : List (List String)) :
    load_approaches fields data = data.filterMap (approachOfRow fields) := by
  simpa [load_approaches] using loadApproachesLoop_eq fields data []

theorem approachOfRow_neo_none (fields row : List String) (a : CloseApproach)
    (h : approachOfRow fields row = some a) : a.neo = none := by
  simp only [approachOfRow, Option.bind_eq_some, bind, Option.bind_eq_some] at h
  obtain ⟨des, _, cd, _, dist, _, d, _, vrel, _, v, _, hmk⟩ := h
  unfold mkCloseApproach at hmk
  dsimp only at hmk
  cases ht : cd_to_datetime cd with
  | none => rw [ht] at hmk; cases hmk
  | some t =>
    rw [ht] at hmk
    simp only [Except.toOption, Option.some.injEq] at hmk
    rw [← hmk]
    rfl

theorem approachOfRow_dist_na (fields row : List String)
    (hdist : dictZipLookup fields row "dist" = some "n/a") :
    approachOfRow fields row = none := by
  unfold approachOfRow
  simp only [bind]
  cases hdes : dictZipLookup fields row "des" with
  | none => rfl
  | some des =>
    cases hcd : dictZipLookup fields row "cd" with
    | none => rfl
    | some cd =>
      simp only [Option.some_bind]
      rw [hdist]
      simp only [Option.some_bind]
      rw [pyFloat_na]
      rfl

theorem neoOfRecord_ok (r : NeoRecord) (neo : NearEarthObject)
    (h : neoOfRecord r = .ok neo) :
    ∃ d, diameterOfRecord r = .ok d ∧
      neo = mkNearEarthObject ⟨some r.pdes,
        (if r.name = "" then none else some r.name), d,
        some (if r.pha = "" ∨ r.pha = "N" then false else true)⟩ := by
  unfold neoOfRecord at h
  cases hd : diameterOfRecord r with
  | error e => rw [hd] at h; cases h
  | ok d => rw [hd] at h; exact ⟨d, rfl, (Except.ok.inj h).symm⟩

/-- C1: the claim states that a record with a malformed (non-numeric,
non-empty) diameter is skipped, reported, and the remaining well-formed
records still returned.  The code violates this: the conversion
`float(n["diameter"])` runs BEFORE the `try` block, so the ValueError it
raises escapes `load_neos` and aborts the whole extraction.  This theorem
evaluates the embedded `load_neos` at a three-record source whose middle
record has diameter `"abc"`: the result is the escaping ValueError, not the
two remaining objects; the same source without the malformed record loads
both objects. -/
theorem claim_C1 :
    (load_neos [NeoRecord.mk "433" "Eros" "16.84" "N",
        NeoRecord.mk "99942" "Apophis" "abc" "Y",
        NeoRecord.mk "1036" "Ganymed" "37.675" "N"]).map
      (List.map NearEarthObject.designation)
      = .error (.valueError "abc") ∧
    (load_neos [NeoRecord.mk "433" "Eros" "16.84" "N",
        NeoRecord.mk "1036" "Ganymed" "37.675" "N"]).map
      (List.map NearEarthObject.designation)
      = .ok [some "433", some "1036"] :=
  ⟨rfl, rfl⟩

/-- C2: the claim states that a record with a missing or empty designation
is rejected before entering the collection.  The code never validates the
designation: `load_neos` passes `n["pdes"]` through and the constructor
stores it as given, so a record whose `pdes` field is the empty string
produces a `NearEarthObject` with designation `""` that IS appended to the
returned collection. -/
theorem claim_C2 :
    (load_neos [NeoRecord.mk "" "Eros" "16.84" "N"]).map
      (List.map NearEarthObject.designation) = .ok [some ""] := rfl

/-- C3: a row of the approach source whose `dist` field is the non-numeric
string `"n/a"` is skipped (the ValueError raised by `float` inside the `try`
block is caught), the returned collection's length equals the total number
of rows minus the number of skipped rows, and — the whole per-row body being
inside the `try` — no exception escapes `load_approaches`, which the
embedding reflects by being total. -/
theorem claim_C3 (fields : List String) (data : List (List String))
    (row : List String) (_hmem : row ∈ data)
    (hdist : dictZipLookup fields row "dist" = some "n/a") :
    approachOfRow fields row = none ∧
    (load_approaches fields data).length
      = data.length - data.countP (fun r => (approachOfRow fields r).isNone) := by
  refine ⟨approachOfRow_dist_na fields row hdist, ?_⟩
  rw [load_approaches_eq_filterMap]
  exact length_filterMap_eq_sub _ data

def cadFields : List String := ["des", "cd", "dist", "v_rel"]

def cadRowBad : List String := ["433", "1900-Jan-01 12:00", "n/a", "5.3"]

def cadRowGood : List String := ["433", "1900-Jan-01 12:00", "0.15", "5.3"]

def cadData : List (List String) := [cadRowBad, cadRowGood]

/-- Witness for C3 at a concrete two-row source whose first row has
`dist = "n/a"`. -/
theorem claim_C3_witness :
    approachOfRow cadFields cadRowBad = none ∧
    (load_approaches cadFields cadData).length
      = cadData.length
        - cadData.countP (fun r => (approachOfRow cadFields r).isNone) :=
  claim_C3 cadFields cadData cadRowBad (by decide) (by decide)

/-- C9: the collection returned by `load_approaches` is exactly the in-order
`filterMap` of the per-row extraction over the source rows — kept records
preserve source row order — and every produced `CloseApproach` has `neo`
equal to `None`, since the extractor passes no `neo` argument and performs
no linkage. -/
theorem claim_C9 (fields : List String) (data : List (List String)) :
    load_approaches fields data = data.filterMap (approachOfRow fields) ∧
    ((load_approaches fields data).all fun a => a.neo.isNone) = true := by
  refine ⟨load_approaches_eq_filterMap fields data, ?_⟩
  rw [List.all_eq_true]
  intro a ha
  rw [load_approaches_eq_filterMap, List.mem_filterMap] at ha
  obtain ⟨row, _, hrow⟩ := ha
  rw [approachOfRow_neo_none fields row a hrow]
  rfl

/-- C4: for a record processed by `load_neos`, a `pha` value of `""` or
`"N"` yields `hazardous == False`, and any other value — in particular any
other non-empty value such as `"Y"` — yields `hazardous == True`. -/
theorem claim_C4 (r : NeoRecord) (neo : NearEarthObject)
    (h : neoOfRecord r = .ok neo) :
    ((r.pha = "" ∨ r.pha = "N") → neo.hazardous = some false) ∧
    (r.pha ≠ "" → r.pha ≠ "N" → neo.hazardous = some true) := by
  obtain ⟨d, -, rfl⟩ := neoOfRecord_ok r neo h
  rw [mkNearEarthObject_hazardous]
  constructor
  · intro hor
    dsimp only
    rw [if_pos hor]
  · intro h1 h2
    dsimp only
    rw [if_neg (by tauto)]

def neoRecEros : NeoRecord := ⟨"433", "Eros", "16.84", "N"⟩

def neoEros : NearEarthObject :=
  mkNearEarthObject ⟨some "433", some "Eros", some (.val (mkRat 1684 100)),
    some false⟩

/-- Witness for C4 at the record `pdes=433, name=Eros, diameter=16.84,
pha=N`. -/
theorem claim_C4_witness :
    ((neoRecEros.pha = "" ∨ neoRecEros.pha = "N") →
      neoEros.hazardous = some false) ∧
    (neoRecEros.pha ≠ "" → neoRecEros.pha ≠ "N" →
      neoEros.hazardous = some true) :=
  claim_C4 neoRecEros neoEros (by rfl)

/-- C5: a `NearEarthObject` produced from a record with an empty diameter
string has the NaN diameter (never zero, never absent — the model's
`PFloat.nan` constructor is exactly the value satisfying `math.isnan`), and
one produced from the diameter string `"2.3"` has diameter equal to the
float value 2.3. -/
theorem claim_C5 (r₁ r₂ : NeoRecord) (n₁ n₂ : NearEarthObject)
    (h₁ : r₁.diameter = "") (hok₁ : neoOfRecord r₁ = .ok n₁)
    (h₂ : r₂.diameter = "2.3") (hok₂ : neoOfRecord r₂ = .ok n₂) :
    n₁.diameter = PFloat.nan ∧ n₂.diameter = PFloat.val (mkRat 23 10) := by
  obtain ⟨d₁, hd₁, rfl⟩ := neoOfRecord_ok r₁ n₁ hok₁
  obtain ⟨d₂, hd₂, rfl⟩ := neoOfRecord_ok r₂ n₂ hok₂
  constructor
  · unfold diameterOfRecord at hd₁
    rw [h₁] at hd₁
    simp only [if_pos rfl] at hd₁
    obtain rfl := Except.ok.inj hd₁
    rw [mkNearEarthObject_diameter]
  · unfold diameterOfRecord at hd₂
    rw [h₂] at hd₂
    rw [if_neg (by decide)] at hd₂
    rw [show pyFloat? "2.3" = some (.val (mkRat 23 10)) from by decide] at hd₂
    obtain rfl := Except.ok.inj hd₂
    rw [mkNearEarthObject_diameter]
    dsimp only
    decide

def neoRecNoDia : NeoRecord := ⟨"2020 AB", "", "", ""⟩

def neoNoDia : NearEarthObject :=
  mkNearEarthObject ⟨some "2020 AB", none, none, some false⟩

def neoRec23 : NeoRecord := ⟨"433", "", "2.3", ""⟩

def neo23 : NearEarthObject :=
  mkNearEarthObject ⟨some "433", none, some (.val (mkRat 23 10)), some false⟩

/-- Witness for C5 at a record with an empty diameter string and a record
with diameter `"2.3"`. -/
theorem claim_C5_witness :
    neoNoDia.diameter = PFloat.nan ∧
    neo23.diameter = PFloat.val (mkRat 23 10) :=
  claim_C5 neoRecNoDia neoRec23 neoNoDia neo23 rfl (by rfl) rfl (by rfl)

/-- C6, counterexample: the claim attributes the empty-name defaulting rule
to construction, but `NearEarthObject.__init__` stores the `name` argument
exactly as given — an object constructed with the name given as the empty
string has name `""`, not the unset marker `None`. -/
theorem claim_C6_counterexample :
    (mkNearEarthObject ⟨some "433", some "",
      some (.val (mkRat 1684 100)), some false⟩).name = some "" ∧
    (some "" : Option String) ≠ none := ⟨rfl, by decide⟩

/-- C6 as amended: the empty-string-to-unset normalization is applied by the
extractor (`n["name"] = n["name"] or None`) before construction, so every
`NearEarthObject` produced by `load_neos` from a record whose name field is
empty has name `None`; the constructor itself yields an unset name only when
the name argument is absent. -/
theorem claim_C6 (r : NeoRecord) (neo : NearEarthObject) (hname : r.name = "")
    (hok : neoOfRecord r = .ok neo) (info : NeoInfo)
    (habs : info.name = none) :
    neo.name = none ∧ (mkNearEarthObject info).name = none := by
  obtain ⟨d, -, rfl⟩ := neoOfRecord_ok r neo hok
  constructor
  · rw [mkNearEarthObject_name]
    dsimp only
    rw [if_pos hname]
  · rw [mkNearEarthObject_name, habs]

/-- Witness for C6 at the record `pdes=433, name=, diameter=16.84, pha=N`
and an argument bag with no name key. -/
theorem claim_C6_witness :
    (mkNearEarthObject ⟨some "433", none, some (.val (mkRat 1684 100)),
      some false⟩).name = none ∧
    (mkNearEarthObject ⟨none, none, none, none⟩).name = none :=
  claim_C6 ⟨"433", "", "16.84", "N"⟩
    (mkNearEarthObject ⟨some "433", none, some (.val (mkRat 1684 100)),
      some false⟩)
    rfl (by rfl) ⟨none, none, none, none⟩ rfl

/-- C7: the claim says the string form reports the diameter as a fixed
3-decimal kilometers figure.  The code violates this: `__str__` writes
`{self.diameter:3f}` — width 3 with the DEFAULT precision of 6 — instead of
`{self.diameter:.3f}` (the repository's own `__repr__` uses `.3f`), so a
diameter of 2.5 km prints as `2.500000`; in the NaN branch the clause is
also concatenated without a space (`hasan unknown diameter`).  This theorem
evaluates the embedded `__str__` on both branches. -/
theorem claim_C7 :
    (mkNearEarthObject ⟨some "433", some "Eros", some (.val (mkRat 25 10)),
      some false⟩).str
      = "NEO 433 (Eros) has a diameter of 2.500000 km and is not potentially hazardous." ∧
    (mkNearEarthObject ⟨some "433", some "Eros", none, some true⟩).str
      = "NEO 433 (Eros) hasan unknown diameter and is potentially hazardous." := by
  constructor <;> decide

/-- C8: `serialize()` returns a mapping with exactly the keys `name`,
`designation`, `diameter_km` and `potentially_hazardous`; the value under
`designation` is the input designation exactly; an unset name serializes as
the empty string; and the stored diameter — the NaN sentinel included — is
passed through unchanged under `diameter_km`. -/
theorem claim_C8 (neo : NearEarthObject) (d : String)
    (hd : neo.designation = some d) :
    (neo.serialize.map Prod.fst).Perm
      ["designation", "name", "diameter_km", "potentially_hazardous"] ∧
    neo.serialize.lookup "designation" = some (.str d) ∧
    (neo.name = none → neo.serialize.lookup "name" = some (.str "")) ∧
    neo.serialize.lookup "diameter_km" = some (.num neo.diameter) := by
  refine ⟨?_, ?_, fun hn => ?_, ?_⟩
  · simp only [NearEarthObject.serialize, List.map]
    exact List.Perm.swap "designation" "name" _
  · simp only [NearEarthObject.serialize]
    rw [hd]
    rfl
  · simp only [NearEarthObject.serialize, hn]
    rfl
  · simp only [NearEarthObject.serialize]
    rfl

def neoBare : NearEarthObject :=
  mkNearEarthObject ⟨some "433", none, none, some false⟩

/-- Witness for C8 at a concrete object with designation `"433"`, no name
and unknown diameter. -/
theorem claim_C8_witness :
    (neoBare.serialize.map Prod.fst).Perm
      ["designation", "name", "diameter_km", "potentially_hazardous"] ∧
    neoBare.serialize.lookup "designation" = some (.str "433") ∧
    (neoBare.name = none → neoBare.serialize.lookup "name" = some (.str "")) ∧
    neoBare.serialize.lookup "diameter_km" = some (.num neoBare.diameter) :=
  claim_C8 neoBare "433" rfl

/-- C10: a `NearEarthObject` constructed with the diameter argument equal to
the float `0.0` stores the NaN diameter — `if not self.diameter` is a
falsiness test, so a genuine zero diameter is indistinguishable from an
unknown one. -/
theorem claim_C10 (info : NeoInfo)
    (h : info.diameter = some (PFloat.val 0)) :
    (mkNearEarthObject info).diameter = PFloat.nan := by
  rw [mkNearEarthObject_diameter, h]
  decide

/-- Witness for C10 at a concrete argument bag with diameter `0.0`. -/
theorem claim_C10_witness :
    (mkNearEarthObject ⟨some "433", none, some (PFloat.val 0),
      some false⟩).diameter = PFloat.nan :=
  claim_C10 ⟨some "433", none, some (PFloat.val 0), some false⟩ rfl
